import Mathlib

/-!
Shallow embedding of the real-time audio-session core of the repository
(`auto_chat_manager.py`, `websocket/connection_manager.py`,
`websocket/chat_handler.py`, `streaming_stt_service.py`) together with
theorems settling the specification claims about it.

Modelling conventions:
* Websocket connections are identified by natural numbers.
* The outside world is a `World`: the set of connections whose sends
  succeed (`alive`), the ordered log of successfully delivered messages
  (`sent`), and the current time (`now`, an integer number of seconds).
  `websocket.send_text` succeeds exactly when the target is in `alive`.
* Python dictionaries keyed by `session_id` become association lists of
  sessions in insertion order (Python dicts preserve insertion order).
* Python exceptions become `Except`; because the Python state is global
  and mutable, the error case carries the state as mutated up to the
  point of the raise.
* `uuid.uuid4()` is modelled by an explicit `freshId` argument.
* Message text produced by `conversation_patterns` (random choice among
  canned strings, excluded from the spec as a content concern) is
  abstracted to one fixed representative string per generator.
-/

/-- A websocket message, tagged by its `type` field. -/
inductive Msg where
  | autoChatMessage (session_id : Nat) (text : String) (message_count : Nat)
  | autoChatStop (session_id : Nat)
  | autoChatSettingsUpdated (session_id : Nat) (theme : String) (interval : Int)
  | autoChatStarted (session_id : Nat) (theme : String) (interval : Int)
  | errorMsg (text : String)
  deriving Repr, DecidableEq

/-- The environment: which connections accept sends, the ordered log of
successfully delivered (connection, message) pairs, and the clock. -/
structure World where
  alive : List Nat
  sent : List (Nat × Msg)
  now : Int
  deriving Repr, DecidableEq

/-- `websocket.send_text` on connection `ws` succeeds iff `ws` is alive. -/
def sendOk (w : World) (ws : Nat) : Bool :=
  w.alive.contains ws

/-- `AutoChatSession.__init__` state (auto_chat_manager.py lines 16-28). -/
structure AutoChatSession where
  session_id : Nat
  websocket : Nat
  theme : String
  interval : Int
  is_active : Bool
  last_message_time : Int
  message_count : Nat
  user_responses : List String
  deriving Repr, DecidableEq

/-- `AutoChatSession.should_send_message`: time since the last message has
reached the interval. -/
def should_send_message (w : World) (s : AutoChatSession) : Bool :=
  decide (w.now - s.last_message_time ≥ s.interval)

/-- `AutoChatSession.add_user_response`: append, then keep only the 10 most
recent entries. -/
def add_user_response (s : AutoChatSession) (response : String) : AutoChatSession :=
  let rs := s.user_responses ++ [response]
  { s with user_responses := if rs.length > 10 then rs.drop (rs.length - 10) else rs }

/-- `AutoChatManager.__init__`: the session dict (as an insertion-ordered
association list keyed by `session_id`) and the background-task flag. -/
structure AutoChatManager where
  active_sessions : List AutoChatSession
  is_running : Bool
  deriving Repr, DecidableEq

/-- Dict lookup `self.active_sessions[session_id]` / membership test. -/
def lookupSession (m : AutoChatManager) (sid : Nat) : Option AutoChatSession :=
  m.active_sessions.find? (fun s => s.session_id == sid)

/-- In-place mutation of the session object stored under key `sid`. -/
def updateSession (m : AutoChatManager) (sid : Nat) (f : AutoChatSession → AutoChatSession) :
    AutoChatManager :=
  { m with active_sessions :=
      m.active_sessions.map (fun s => if s.session_id == sid then f s else s) }

/-- `del self.active_sessions[sid]` (no-op when absent). -/
def deleteSession (m : AutoChatManager) (sid : Nat) : AutoChatManager :=
  { m with active_sessions := m.active_sessions.filter (fun s => s.session_id != sid) }

/-- `conversation_patterns.get_themed_message` (random canned text,
abstracted to a fixed representative per theme). -/
def get_themed_message (theme : String) : String :=
  "themed " ++ theme

/-- `conversation_patterns.get_contextual_message` (abstracted likewise). -/
def get_contextual_message (theme : String) : String :=
  "contextual " ++ theme

/-- `conversation_patterns.get_response_to_input` (abstracted likewise). -/
def get_response_to_input (input : String) : String :=
  "response " ++ input

/-- `AutoChatManager.send_websocket_message` (lines 173-179): try to send;
on failure log and re-raise.  The world is unchanged when the send fails. -/
def send_websocket_message (w : World) (ws : Nat) (msg : Msg) : Except String World :=
  if sendOk w ws then .ok { w with sent := w.sent ++ [(ws, msg)] }
  else .error "send failed"

/-- `AutoChatManager.stop_auto_chat` (lines 76-91): mark inactive, send the
stop notification (which may raise, carrying the mutated state), then delete
the session and return `true`; return `false` if the id is unknown. -/
def stop_auto_chat (m : AutoChatManager) (w : World) (session_id : Nat) :
    Except (String × AutoChatManager × World) (Bool × AutoChatManager × World) :=
  match lookupSession m session_id with
  | some session =>
    let m1 := updateSession m session_id (fun s => { s with is_active := false })
    match send_websocket_message w session.websocket (.autoChatStop session_id) with
    | .ok w1 => .ok (true, deleteSession m1 session_id, w1)
    | .error e => .error (e, m1, w)
  | none => .ok (false, m, w)

/-- The ids collected by `stop_auto_chat_for_websocket` (lines 95-98). -/
def sessionsForWebsocket (m : AutoChatManager) (ws : Nat) : List Nat :=
  (m.active_sessions.filter (fun s => s.websocket == ws)).map (fun s => s.session_id)

/-- The `for session_id in sessions_to_remove` loop of
`stop_auto_chat_for_websocket` (lines 100-101); an exception from
`stop_auto_chat` aborts the rest of the loop. -/
def stopSessions (m : AutoChatManager) (w : World) :
    List Nat → Except (String × AutoChatManager × World) (AutoChatManager × World)
  | [] => .ok (m, w)
  | sid :: rest =>
    match stop_auto_chat m w sid with
    | .ok (_, m1, w1) => stopSessions m1 w1 rest
    | .error e => .error e

/-- `AutoChatManager.stop_auto_chat_for_websocket` (lines 93-103). -/
def stop_auto_chat_for_websocket (m : AutoChatManager) (w : World) (ws : Nat) :
    Except (String × AutoChatManager × World) (Bool × AutoChatManager × World) :=
  let toRemove := sessionsForWebsocket m ws
  match stopSessions m w toRemove with
  | .ok (m1, w1) => .ok (decide (0 < toRemove.length), m1, w1)
  | .error e => .error e

/-- `AutoChatManager.send_auto_message_with_text` (lines 151-171): send the
`auto_chat_message`; on success bump the session's last-message time and
count, on any exception delete the session from the dict.  Never raises. -/
def send_auto_message_with_text (m : AutoChatManager) (w : World)
    (session : AutoChatSession) (message_text : String) : AutoChatManager × World :=
  match send_websocket_message w session.websocket
      (.autoChatMessage session.session_id message_text (session.message_count + 1)) with
  | .ok w1 =>
    (updateSession m session.session_id
      (fun s => { s with last_message_time := w1.now, message_count := s.message_count + 1 }),
     w1)
  | .error _ => (deleteSession m session.session_id, w)

/-- `AutoChatManager.send_auto_message` (lines 138-149): a greeting for the
session's first message, a contextual themed message afterwards. -/
def send_auto_message (m : AutoChatManager) (w : World) (session : AutoChatSession) :
    AutoChatManager × World :=
  let message_text :=
    if session.message_count == 0 then get_themed_message "greeting"
    else get_contextual_message session.theme
  send_auto_message_with_text m w session message_text

/-- `AutoChatManager.start_background_task` (lines 181-185), state part. -/
def start_background_task (m : AutoChatManager) : AutoChatManager :=
  if !m.is_running then { m with is_running := true } else m

/-- `AutoChatManager.start_auto_chat` (lines 57-74): stop existing sessions
for the websocket, create and register the new session (interval stored
as given), start the background task if needed, immediately send the first
message, and return the new session id. -/
def start_auto_chat (m : AutoChatManager) (w : World) (ws : Nat)
    (theme : String) (interval : Int) (freshId : Nat) :
    Except (String × AutoChatManager × World) (Nat × AutoChatManager × World) :=
  match stop_auto_chat_for_websocket m w ws with
  | .error e => .error e
  | .ok (_, m1, w1) =>
    let session : AutoChatSession :=
      { session_id := freshId, websocket := ws, theme := theme, interval := interval,
        is_active := true, last_message_time := w1.now, message_count := 0,
        user_responses := [] }
    let m2 := { m1 with active_sessions := m1.active_sessions ++ [session] }
    let m3 := start_background_task m2
    let (m4, w2) := send_auto_message m3 w1 session
    .ok (freshId, m4, w2)

/-- `AutoChatManager.pause_auto_chat` (lines 105-110). -/
def pause_auto_chat (m : AutoChatManager) (w : World) (session_id : Nat) (duration : Int) :
    AutoChatManager :=
  match lookupSession m session_id with
  | some _ => updateSession m session_id (fun s => { s with last_message_time := w.now + duration })
  | none => m

/-- `AutoChatManager.send_contextual_response` (lines 127-136). -/
def send_contextual_response (m : AutoChatManager) (w : World)
    (session : AutoChatSession) (user_input : String) : AutoChatManager × World :=
  let response_text := get_response_to_input user_input
  let response_text :=
    if session.message_count > 0 then
      response_text ++ " " ++ get_themed_message session.theme
    else response_text
  send_auto_message_with_text m w session response_text

/-- `AutoChatManager.handle_user_input` (lines 112-125): find the first
active session of the websocket, record the utterance, pause the session
for 90 seconds and send a contextual reply. -/
def handle_user_input (m : AutoChatManager) (w : World) (ws : Nat) (user_text : String) :
    AutoChatManager × World :=
  match m.active_sessions.find? (fun s => s.websocket == ws && s.is_active) with
  | some session =>
    let session1 := add_user_response session user_text
    let m1 := updateSession m session.session_id (fun _ => session1)
    let m2 := pause_auto_chat m1 w session.session_id 90
    send_contextual_response m2 w session1 user_text
  | none => (m, w)

/-- `AutoChatManager.update_session_settings` (lines 239-259): mutate the
session object (clamping the interval into [10, 300]), then send the
settings-changed notification, which may raise after the mutation. -/
def update_session_settings (m : AutoChatManager) (w : World) (session_id : Nat)
    (theme : Option String) (interval : Option Int) :
    Except (String × AutoChatManager × World) (Bool × AutoChatManager × World) :=
  match lookupSession m session_id with
  | some session =>
    let session1 :=
      match theme with
      | some t => { session with theme := t }
      | none => session
    let session2 :=
      match interval with
      | some i => { session1 with interval := max 10 (min 300 i) }
      | none => session1
    let m2 := updateSession m session_id (fun _ => session2)
    match send_websocket_message w session2.websocket
        (.autoChatSettingsUpdated session_id session2.theme session2.interval) with
    | .ok w1 => .ok (true, m2, w1)
    | .error e => .error (e, m2, w)
  | none => .ok (false, m, w)

/-- One pass of the `for session in sessions_to_process` loop inside
`AutoChatManager.auto_chat_loop` (lines 204-206), threading the state left
to right through the snapshot. -/
def processSessions (m : AutoChatManager) (w : World) :
    List AutoChatSession → AutoChatManager × World
  | [] => (m, w)
  | session :: rest =>
    if session.is_active && should_send_message w session then
      let (m1, w1) := send_auto_message m w session
      processSessions m1 w1 rest
    else processSessions m w rest

/-- One tick of `AutoChatManager.auto_chat_loop` (lines 197-213): snapshot
the active sessions and process each due one; per-session send errors are
swallowed inside `send_auto_message_with_text`, so the tick is total. -/
def auto_chat_loop_tick (m : AutoChatManager) (w : World) : AutoChatManager × World :=
  processSessions m w m.active_sessions

/-- `ConnectionManager.__init__` (connection_manager.py line 13). -/
structure ConnectionManager where
  active_connections : List Nat
  deriving Repr, DecidableEq

/-- `ConnectionManager.connect` (lines 15-18): accept (modelled as
succeeding) and append unconditionally. -/
def ConnectionManager.connect (cm : ConnectionManager) (ws : Nat) : ConnectionManager :=
  { cm with active_connections := cm.active_connections ++ [ws] }

/-- `ConnectionManager.disconnect` (lines 20-23): remove the first
occurrence when present. -/
def ConnectionManager.disconnect (cm : ConnectionManager) (ws : Nat) : ConnectionManager :=
  if cm.active_connections.contains ws then
    { cm with active_connections := cm.active_connections.erase ws }
  else cm

/-- `ConnectionManager.send_personal_message` (lines 25-31): try the send;
on any exception log and disconnect the websocket.  The exception is
swallowed and the function returns None on every path, so the translation
is a total function into plain pairs — no error reaches the caller. -/
def ConnectionManager.send_personal_message (cm : ConnectionManager) (w : World)
    (ws : Nat) (msg : Msg) : ConnectionManager × World :=
  match send_websocket_message w ws msg with
  | .ok w1 => (cm, w1)
  | .error _ => (cm.disconnect ws, w)

/-- The `except WebSocketDisconnect` cleanup path of `handle_chat_websocket`
(chat_handler.py lines 43-46): stop the websocket's auto-chat sessions,
then unregister the connection.  An exception escaping
`stop_auto_chat_for_websocket` propagates before `manager.disconnect` runs. -/
def handle_chat_websocket_disconnect (cm : ConnectionManager) (m : AutoChatManager)
    (w : World) (ws : Nat) :
    Except (String × ConnectionManager × AutoChatManager × World)
      (ConnectionManager × AutoChatManager × World) :=
  match stop_auto_chat_for_websocket m w ws with
  | .ok (_, m1, w1) => .ok (cm.disconnect ws, m1, w1)
  | .error (e, m1, w1) => .error (e, cm, m1, w1)

/-- `_handle_auto_chat_start` (chat_handler.py lines 114-134): run
`start_auto_chat`, then send the `auto_chat_started` acknowledgement with
the returned session id; on an exception send an error message instead.
Both sends go through `ConnectionManager.send_personal_message`. -/
def handle_auto_chat_start (cm : ConnectionManager) (m : AutoChatManager) (w : World)
    (ws : Nat) (theme : String) (interval : Int) (freshId : Nat) :
    ConnectionManager × AutoChatManager × World :=
  match start_auto_chat m w ws theme interval freshId with
  | .ok (session_id, m1, w1) =>
    let (cm1, w2) := cm.send_personal_message w1 ws (.autoChatStarted session_id theme interval)
    (cm1, m1, w2)
  | .error (e, m1, w1) =>
    let (cm1, w2) := cm.send_personal_message w1 ws (.errorMsg e)
    (cm1, m1, w2)

/-- `AudioChunk` dataclass (streaming_stt_service.py lines 20-26); `data`
holds the temp-file path backing the WebM bytes. -/
structure AudioChunk where
  data : String
  sample_rate : Nat
  timestamp : Int
  is_final : Bool
  deriving Repr, DecidableEq

/-- The state of an `asyncio.Queue`: its `maxsize` (`0` means unbounded)
and its items in FIFO order. -/
structure STTQueue where
  maxsize : Nat
  items : List AudioChunk
  deriving Repr, DecidableEq

/-- `asyncio.Queue.full`: true iff `maxsize` is positive and reached. -/
def STTQueue.full (q : STTQueue) : Bool :=
  decide (0 < q.maxsize) && decide (q.maxsize ≤ q.items.length)

/-- `asyncio.Queue.put_nowait`: `none` models the `QueueFull` exception. -/
def STTQueue.put_nowait (q : STTQueue) (c : AudioChunk) : Option STTQueue :=
  if q.full then none else some { q with items := q.items ++ [c] }

/-- Queue effect of `StreamingSTTService.add_audio_chunk` (lines 106-136):
`put_nowait` the chunk; `except asyncio.QueueFull` only logs a warning, so
a full queue leaves the service state exactly as it was. -/
def add_audio_chunk (q : STTQueue) (c : AudioChunk) : STTQueue :=
  match q.put_nowait c with
  | some q1 => q1
  | none => q

/-- The audio queue as constructed in `StreamingSTTService.__init__`
(line 72): `asyncio.Queue()` with no maxsize, i.e. unbounded. -/
def initAudioQueue : STTQueue :=
  { maxsize := 0, items := [] }

/-- `max(0, min(1, x))` over the rationals. -/
def clamp01 (x : ℚ) : ℚ :=
  max 0 (min 1 x)

/-- The confidence computation of `StreamingSTTService.transcribe_chunk`
(lines 165-178): each segment's `avg_logprob` is remapped through
`max(0, min(1, avg_logprob + 1))`, the remapped values are summed, and the
sum is divided by `max(segment_count, 1)`. -/
def transcribe_chunk_confidence (logprobs : List ℚ) : ℚ :=
  let total_confidence := (logprobs.map (fun lp => clamp01 (lp + 1))).sum
  total_confidence / (max logprobs.length 1 : ℚ)

/-- The confidence formula as claim C7 words it (spec comparison
definition): first average the per-segment log-probabilities, then remap
the average through `clamp(avg_logprob + 1, 0, 1)`. -/
def confidence_spec_C7 (logprobs : List ℚ) : ℚ :=
  clamp01 (logprobs.sum / (max logprobs.length 1 : ℚ) + 1)

/-- `SendTo` as claim C5 words it (spec comparison definition): on a
failed write, unregister the connection and return an error to the
caller; the first component is the error the caller receives. -/
def SendTo_spec (cm : ConnectionManager) (w : World) (ws : Nat) (msg : Msg) :
    Option String × ConnectionManager × World :=
  match send_websocket_message w ws msg with
  | .ok w1 => (none, cm, w1)
  | .error e => (some e, cm.disconnect ws, w)

/-- What `ConnectionManager.send_personal_message` actually hands back to
its caller: the Python function returns `None` on every path (the send
exception is swallowed), so the error component is always `none`. -/
def send_personal_message_return (cm : ConnectionManager) (w : World)
    (ws : Nat) (msg : Msg) : Option String × ConnectionManager × World :=
  (none, cm.send_personal_message w ws msg)

/-- Resulting global state of a fallible manager operation, whether it
returned normally or raised (Python state mutations survive a raise). -/
def exceptState {α : Type} :
    Except (String × AutoChatManager × World) (α × AutoChatManager × World) →
      AutoChatManager × World
  | .ok (_, m, w) => (m, w)
  | .error (_, m, w) => (m, w)

/-- Resulting global state of `stopSessions`. -/
def exceptStateL :
    Except (String × AutoChatManager × World) (AutoChatManager × World) →
      AutoChatManager × World
  | .ok p => p
  | .error (_, m, w) => (m, w)

/-- Number of sessions in the manager bound to connection `ws`. -/
def connCount (m : AutoChatManager) (ws : Nat) : Nat :=
  m.active_sessions.countP (fun s => s.websocket == ws)

/-- Claim C3's invariant: every connection is referenced by at most one
session in the scheduler's map. -/
def atMostOnePerConn (m : AutoChatManager) : Prop :=
  ∀ ws, connCount m ws ≤ 1

/-- The operations of claim C3: session start, session stop (by id and by
websocket) and a user utterance. -/
inductive Op where
  | start (ws : Nat) (theme : String) (interval : Int) (freshId : Nat)
  | stop (session_id : Nat)
  | stopForWs (ws : Nat)
  | userInput (ws : Nat) (text : String)

/-- Apply one operation to the global state, keeping the state as mutated
even when the operation raised. -/
def applyOp (m : AutoChatManager) (w : World) : Op → AutoChatManager × World
  | .start ws theme interval freshId => exceptState (start_auto_chat m w ws theme interval freshId)
  | .stop session_id => exceptState (stop_auto_chat m w session_id)
  | .stopForWs ws => exceptState (stop_auto_chat_for_websocket m w ws)
  | .userInput ws text => handle_user_input m w ws text

/-- Well-formedness of the session dict: keys (session ids) are unique.
Python dict keys are unique by construction; the association-list model
carries this as an explicit invariant. -/
def wfKeys (m : AutoChatManager) : Prop :=
  (m.active_sessions.map (fun s => s.session_id)).Nodup

/-- Side condition of an operation: a started session's id is fresh
(`uuid.uuid4()` never collides with a live session id). -/
def opFresh (m : AutoChatManager) : Op → Prop
  | .start _ _ _ freshId => lookupSession m freshId = none
  | .stop _ => True
  | .stopForWs _ => True
  | .userInput _ _ => True

/-- C4 counterexample: registering the same connection twice appends it
twice, so `connect` is not idempotent and the at-most-once invariant over
arbitrary Register sequences fails. -/
theorem C4_counterexample :
    (ConnectionManager.connect (ConnectionManager.connect ⟨[]⟩ 7) 7).active_connections
      = [7, 7]
    ∧ ¬ ((ConnectionManager.connect
            (ConnectionManager.connect ⟨[]⟩ 7) 7).active_connections.count 7 ≤ 1) := by
  exact ⟨rfl, by decide⟩

/-- C4 (amended): `ConnectionManager.connect` appends the connection
unconditionally, raising its multiplicity by exactly one, and
`ConnectionManager.disconnect` removes exactly one occurrence (none when
absent); so a connection registered n times between removals appears n
times, not at most once. -/
theorem C4_register_amended (cm : ConnectionManager) (ws : Nat) :
    (cm.connect ws).active_connections.count ws
        = cm.active_connections.count ws + 1
    ∧ (cm.disconnect ws).active_connections.count ws
        = cm.active_connections.count ws - 1 := by
  constructor
  · simp [ConnectionManager.connect]
  · unfold ConnectionManager.disconnect
    by_cases h : ws ∈ cm.active_connections
    · simp [h, List.count_erase_self]
    · simp [h, List.count_eq_zero_of_not_mem h]

/-- C5 counterexample: with connection 5 dead, the spec-worded `SendTo`
returns an error to the caller, but the code's
`send_personal_message` swallows the exception and returns normally
(`None`); both unregister the connection. -/
theorem C5_counterexample :
    SendTo_spec ⟨[5]⟩ ⟨[], [], 0⟩ 5 (.errorMsg "x")
      = (some "send failed", ⟨[]⟩, ⟨[], [], 0⟩)
    ∧ send_personal_message_return ⟨[5]⟩ ⟨[], [], 0⟩ 5 (.errorMsg "x")
      = (none, ⟨[]⟩, ⟨[], [], 0⟩)
    ∧ SendTo_spec ⟨[5]⟩ ⟨[], [], 0⟩ 5 (.errorMsg "x")
      ≠ send_personal_message_return ⟨[5]⟩ ⟨[], [], 0⟩ 5 (.errorMsg "x") := by
  refine ⟨rfl, rfl, by decide⟩

/-- C5 (amended): on a failed write `send_personal_message` unregisters the
connection as a side effect but swallows the exception and returns
normally — no error reaches the caller; on a successful write the registry
is unchanged and the message is appended to the connection's log. -/
theorem C5_sendto_amended (cm : ConnectionManager) (w : World) (ws : Nat) (msg : Msg) :
    cm.send_personal_message w ws msg
      = (if sendOk w ws then (cm, { w with sent := w.sent ++ [(ws, msg)] })
         else (cm.disconnect ws, w)) := by
  unfold ConnectionManager.send_personal_message send_websocket_message
  by_cases h : sendOk w ws <;> simp [h]

/-- C6 counterexample: a full audio queue (generic `asyncio.Queue`
semantics, maxsize 1 holding one chunk) leaves the entire service state
unchanged when a chunk is ingested — the chunk is dropped but nothing in
the program state (in particular no drop counter) is incremented; the code
only emits a log warning. -/
theorem C6_counterexample :
    STTQueue.full ⟨1, [⟨"c0", 16000, 0, false⟩]⟩ = true
    ∧ add_audio_chunk ⟨1, [⟨"c0", 16000, 0, false⟩]⟩ ⟨"c1", 16000, 1, false⟩
        = ⟨1, [⟨"c0", 16000, 0, false⟩]⟩ := by
  exact ⟨rfl, rfl⟩

/-- C6 (amended): ingestion is a total (non-blocking) function of the
queue state; when the queue is full the new chunk is dropped with the
state unchanged (only a warning is logged — no drop counter exists),
otherwise the chunk is appended; moreover the service's own audio queue is
constructed unbounded (`asyncio.Queue()`, maxsize 0), so it is never full. -/
theorem C6_ingest_amended (q : STTQueue) (c : AudioChunk) (items : List AudioChunk) :
    add_audio_chunk q c
        = (if q.full then q else { q with items := q.items ++ [c] })
    ∧ STTQueue.full { maxsize := 0, items := items } = false
    ∧ initAudioQueue.maxsize = 0 := by
  refine ⟨?_, by simp [STTQueue.full], rfl⟩
  unfold add_audio_chunk STTQueue.put_nowait
  by_cases h : q.full <;> simp [h]

/-- C7 counterexample: on a chunk with segment log-probabilities −2 and 0
the code (clamp each segment, then average) yields 1/2, while the claim's
formula (average, then clamp) yields 0 — the two computations differ. -/
theorem C7_counterexample :
    transcribe_chunk_confidence [-2, 0] = 1/2
    ∧ confidence_spec_C7 [-2, 0] = 0
    ∧ transcribe_chunk_confidence [-2, 0] ≠ confidence_spec_C7 [-2, 0] := by
  refine ⟨?_, ?_, ?_⟩ <;>
    norm_num [transcribe_chunk_confidence, confidence_spec_C7, clamp01]

/-- C7 (amended): the recognition worker clamps each segment's
`avg_logprob + 1` into [0,1] and then averages the clamped values (not
average-then-clamp); the result always lies in [0,1], a chunk whose
segments all have `avg_logprob = -1` gets confidence 0, and one whose
segments all have `avg_logprob = 0` gets confidence 1. -/
theorem C7_confidence_amended (lps : List ℚ) (n : Nat) :
    0 ≤ transcribe_chunk_confidence lps
    ∧ transcribe_chunk_confidence lps ≤ 1
    ∧ transcribe_chunk_confidence (List.replicate (n + 1) (-1)) = 0
    ∧ transcribe_chunk_confidence (List.replicate (n + 1) 0) = 1 := by
  have hdenNat : 0 < max lps.length 1 :=
    Nat.lt_of_lt_of_le Nat.one_pos (Nat.le_max_right _ _)
  have hden : (0 : ℚ) < (max lps.length 1 : ℚ) := by exact_mod_cast hdenNat
  refine ⟨?_, ?_, ?_, ?_⟩
  · unfold transcribe_chunk_confidence
    apply div_nonneg _ hden.le
    apply List.sum_nonneg
    intro x hx
    obtain ⟨lp, _, rfl⟩ := List.mem_map.mp hx
    exact le_max_left 0 _
  · unfold transcribe_chunk_confidence
    rw [div_le_one hden]
    have hsum : (lps.map (fun lp => clamp01 (lp + 1))).sum
        ≤ (lps.map (fun lp => clamp01 (lp + 1))).length • (1 : ℚ) := by
      apply List.sum_le_card_nsmul
      intro x hx
      obtain ⟨lp, _, rfl⟩ := List.mem_map.mp hx
      exact max_le (by norm_num) (min_le_left 1 _)
    calc (lps.map (fun lp => clamp01 (lp + 1))).sum
        ≤ (lps.map (fun lp => clamp01 (lp + 1))).length • (1 : ℚ) := hsum
      _ = (lps.length : ℚ) := by simp
      _ ≤ (max lps.length 1 : ℚ) := by
          exact_mod_cast Nat.cast_le.mpr (Nat.le_max_left lps.length 1)
  · unfold transcribe_chunk_confidence
    simp [List.map_replicate, clamp01, List.sum_replicate]
  · unfold transcribe_chunk_confidence
    have h1 : clamp01 ((0 : ℚ) + 1) = 1 := by
      simp [clamp01]
    simp only [List.map_replicate, h1, List.sum_replicate, List.length_replicate]
    have hle : (1 : ℚ) ≤ ((n + 1 : Nat) : ℚ) := by
      exact_mod_cast Nat.le_add_left 1 n
    rw [max_eq_left hle, nsmul_eq_mul, mul_one]
    exact div_self (by exact_mod_cast Nat.succ_ne_zero n)

/-- C2 is a code bug: with connection 7 disconnected (so every send to it
fails) and one auto-chat session bound to it, the disconnect cleanup path
raises inside `stop_auto_chat` while sending the stop notification over
the dead connection; the exception escapes before the session is deleted
and before `manager.disconnect` runs, leaving the session in the scheduler
map (merely marked inactive) and the connection still registered. -/
theorem C2_cleanup_not_unconditional :
    handle_chat_websocket_disconnect ⟨[7]⟩
        ⟨[⟨1, 7, "casual", 30, true, 0, 0, []⟩], true⟩ ⟨[], [], 100⟩ 7
      = .error ("send failed", ⟨[7]⟩,
          ⟨[⟨1, 7, "casual", 30, false, 0, 0, []⟩], true⟩, ⟨[], [], 100⟩) := by
  rfl

/-- C1 counterexample: `start_auto_chat` called with interval 5 stores 5
in the new session — no clamping into [10,300] happens on session start. -/
theorem C1_counterexample :
    (Except.toOption (start_auto_chat ⟨[], false⟩ ⟨[7], [], 0⟩ 7 "casual" 5 1)).bind
        (fun r => (lookupSession r.2.1 1).map (fun s => s.interval)) = some 5
    ∧ ¬ ((10 : Int) ≤ 5) := by
  exact ⟨rfl, by decide⟩

/-- C9 counterexample: for `auto_chat_start` on a fresh live connection
the first message delivered is the greeting `auto_chat_message`, and the
`auto_chat_started` acknowledgement only follows it — not the other way
around as the claim states. -/
theorem C9_counterexample :
    (handle_auto_chat_start ⟨[7]⟩ ⟨[], false⟩ ⟨[7], [], 0⟩ 7 "casual" 30 1).2.2.sent
      = [(7, .autoChatMessage 1 (get_themed_message "greeting") 1),
         (7, .autoChatStarted 1 "casual" 30)]
    ∧ (handle_auto_chat_start ⟨[7]⟩ ⟨[], false⟩ ⟨[7], [], 0⟩ 7 "casual" 30 1).2.2.sent.head?
        ≠ some (7, .autoChatStarted 1 "casual" 30) := by
  exact ⟨rfl, by decide⟩

/-- After deleting key `sid`, looking up `sid` fails. -/
theorem lookupSession_deleteSession_self (m : AutoChatManager) (sid : Nat) :
    lookupSession (deleteSession m sid) sid = none := by
  unfold lookupSession deleteSession
  rw [List.find?_eq_none]
  intro x hx
  have h2 := (List.mem_filter.mp hx).2
  simp only [bne_iff_ne, ne_eq] at h2
  simp [h2]

/-- Updating the entry found under `sid` makes the lookup return the
updated entry, provided the update keeps the key. -/
theorem find?_update_self (l : List AutoChatSession) (sid : Nat)
    (f : AutoChatSession → AutoChatSession) (s : AutoChatSession)
    (hs : l.find? (fun t => t.session_id == sid) = some s)
    (hf : ((f s).session_id == sid) = true) :
    (l.map (fun t => if t.session_id == sid then f t else t)).find?
        (fun t => t.session_id == sid) = some (f s) := by
  induction l with
  | nil => simp at hs
  | cons a l ih =>
    cases ha : a.session_id == sid with
    | true =>
      rw [List.find?_cons, ha] at hs
      have haa : a = s := Option.some.inj hs
      subst haa
      simp only [List.map_cons, if_pos ha]
      rw [List.find?_cons, hf]
    | false =>
      have hneg : ¬ (a.session_id == sid) = true := by simp [ha]
      rw [List.find?_cons, ha] at hs
      simp only [List.map_cons, if_neg hneg]
      rw [List.find?_cons, ha]
      exact ih hs

/-- Manager-level form of `find?_update_self`. -/
theorem lookupSession_updateSession_self (m : AutoChatManager) (sid : Nat)
    (f : AutoChatSession → AutoChatSession) (s : AutoChatSession)
    (hs : lookupSession m sid = some s) (hf : ((f s).session_id == sid) = true) :
    lookupSession (updateSession m sid f) sid = some (f s) :=
  find?_update_self m.active_sessions sid f s hs hf

/-- `start_background_task` only touches the running flag. -/
theorem start_background_task_sessions (m : AutoChatManager) :
    (start_background_task m).active_sessions = m.active_sessions := by
  unfold start_background_task
  split <;> rfl

/-- Global state of `update_session_settings` on a found session: the
session's interval is replaced by the clamp whether or not the
notification send succeeds. -/
theorem update_session_settings_state (m : AutoChatManager) (w : World) (sid : Nat)
    (i : Int) (s : AutoChatSession) (hs : lookupSession m sid = some s) :
    exceptState (update_session_settings m w sid none (some i))
      = (updateSession m sid (fun _ => { s with interval := max 10 (min 300 i) }),
         if sendOk w s.websocket then
           { w with sent := w.sent ++ [(s.websocket,
               .autoChatSettingsUpdated sid s.theme (max 10 (min 300 i)))] }
         else w) := by
  unfold update_session_settings send_websocket_message
  rw [hs]
  by_cases h : sendOk w s.websocket <;> simp [h, exceptState]

/-- `start_auto_chat` on a websocket with no prior sessions and a live
connection: the new session is appended with the given (unclamped)
interval, the greeting is delivered at once and its counter bumped. -/
theorem start_auto_chat_fresh_alive (m : AutoChatManager) (w : World) (ws fid : Nat)
    (theme : String) (interval : Int)
    (hws : sessionsForWebsocket m ws = []) (halive : sendOk w ws = true) :
    start_auto_chat m w ws theme interval fid
      = .ok (fid,
          updateSession
            (start_background_task
              { m with active_sessions := m.active_sessions ++
                  [⟨fid, ws, theme, interval, true, w.now, 0, []⟩] })
            fid (fun s => { s with last_message_time := w.now,
                                   message_count := s.message_count + 1 }),
          { w with sent := w.sent ++
              [(ws, .autoChatMessage fid (get_themed_message "greeting") 1)] }) := by
  unfold start_auto_chat stop_auto_chat_for_websocket
  rw [hws]
  simp only [stopSessions]
  unfold send_auto_message send_auto_message_with_text send_websocket_message
  simp [halive]

/-- `start_auto_chat` on a websocket with no prior sessions whose
connection is dead: the greeting send fails, the fresh session is deleted
again, and the call still returns the fresh id without error. -/
theorem start_auto_chat_fresh_dead (m : AutoChatManager) (w : World) (ws fid : Nat)
    (theme : String) (interval : Int)
    (hws : sessionsForWebsocket m ws = []) (hdead : sendOk w ws = false) :
    start_auto_chat m w ws theme interval fid
      = .ok (fid,
          deleteSession
            (start_background_task
              { m with active_sessions := m.active_sessions ++
                  [⟨fid, ws, theme, interval, true, w.now, 0, []⟩] })
            fid,
          w) := by
  unfold start_auto_chat stop_auto_chat_for_websocket
  rw [hws]
  simp only [stopSessions]
  unfold send_auto_message send_auto_message_with_text send_websocket_message
  simp [hdead]

/-- C1 (amended): `update_session_settings` stores the clamp
`max(10, min(300, interval))`, which always lies in [10,300] (10 for
inputs below 10, 300 for inputs above 300), whether or not the
notification send succeeds; `start_auto_chat` however stores the given
interval unchanged, with no clamping. -/
theorem C1_clamp_amended (m : AutoChatManager) (w : World) (sid : Nat) (i : Int)
    (s : AutoChatSession) (hs : lookupSession m sid = some s)
    (ws fid : Nat) (theme : String)
    (hws : sessionsForWebsocket m ws = []) (halive : sendOk w ws = true)
    (hfresh : lookupSession m fid = none) :
    ((lookupSession (exceptState (update_session_settings m w sid none (some i))).1 sid).map
        (fun t => t.interval)) = some (max 10 (min 300 i))
    ∧ 10 ≤ max 10 (min 300 i) ∧ max 10 (min 300 i) ≤ 300
    ∧ (i < 10 → max 10 (min 300 i) = 10)
    ∧ (300 < i → max 10 (min 300 i) = 300)
    ∧ ∃ mS wS, start_auto_chat m w ws theme i fid = .ok (fid, mS, wS)
        ∧ (lookupSession mS fid).map (fun t => t.interval) = some i := by
  have hsid : (s.session_id == sid) = true :=
    @List.find?_some AutoChatSession (fun (t : AutoChatSession) => t.session_id == sid) s
      m.active_sessions hs
  refine ⟨?_, le_max_left _ _, ?_, ?_, ?_, ?_⟩
  · rw [update_session_settings_state m w sid i s hs]
    have hupd := lookupSession_updateSession_self m sid
      (fun _ => { s with interval := max 10 (min 300 i) }) s hs (by simpa using hsid)
    rw [hupd]
    rfl
  · refine max_le ?_ ?_
    · norm_num
    · exact le_trans (min_le_left _ _) (by norm_num)
  · intro hlt
    have : min 300 i ≤ 10 := le_trans (min_le_right _ _) hlt.le
    omega
  · intro hgt
    have : min 300 i = 300 := min_eq_left hgt.le
    rw [this]
    omega
  · refine ⟨_, _, start_auto_chat_fresh_alive m w ws fid theme i hws halive, ?_⟩
    have hfresh2 : m.active_sessions.find? (fun t => t.session_id == fid) = none := hfresh
    have hs0 : (m.active_sessions ++
          [(⟨fid, ws, theme, i, true, w.now, 0, []⟩ : AutoChatSession)]).find?
            (fun t => t.session_id == fid)
        = some ⟨fid, ws, theme, i, true, w.now, 0, []⟩ := by
      simp [List.find?_append, hfresh2, List.find?_cons]
    have hlook := find?_update_self
      (m.active_sessions ++ [(⟨fid, ws, theme, i, true, w.now, 0, []⟩ : AutoChatSession)])
      fid
      (fun t => { t with last_message_time := w.now, message_count := t.message_count + 1 })
      ⟨fid, ws, theme, i, true, w.now, 0, []⟩ hs0 (by simp)
    unfold lookupSession updateSession
    rw [start_background_task_sessions]
    rw [hlook]
    rfl

/-- C1 amended, witness at a concrete input. -/
theorem C1_clamp_amended_witness :
    lookupSession ⟨[⟨2, 9, "x", 50, true, 0, 0, []⟩], true⟩ 2
        = some ⟨2, 9, "x", 50, true, 0, 0, []⟩
    ∧ sessionsForWebsocket ⟨[⟨2, 9, "x", 50, true, 0, 0, []⟩], true⟩ 7 = []
    ∧ sendOk ⟨[7, 9], [], 0⟩ 7 = true
    ∧ lookupSession ⟨[⟨2, 9, "x", 50, true, 0, 0, []⟩], true⟩ 1 = none
    ∧ (((lookupSession (exceptState (update_session_settings
            ⟨[⟨2, 9, "x", 50, true, 0, 0, []⟩], true⟩ ⟨[7, 9], [], 0⟩ 2
            none (some 400))).1 2).map (fun t => t.interval))
          = some (max 10 (min 300 400))
       ∧ 10 ≤ max 10 (min 300 (400 : Int)) ∧ max 10 (min 300 (400 : Int)) ≤ 300
       ∧ ((400 : Int) < 10 → max 10 (min 300 (400 : Int)) = 10)
       ∧ ((300 : Int) < 400 → max 10 (min 300 (400 : Int)) = 300)
       ∧ ∃ mS wS, start_auto_chat ⟨[⟨2, 9, "x", 50, true, 0, 0, []⟩], true⟩
              ⟨[7, 9], [], 0⟩ 7 "casual" 400 1 = .ok (1, mS, wS)
           ∧ (lookupSession mS 1).map (fun t => t.interval) = some 400) :=
  ⟨rfl, rfl, rfl, rfl,
    C1_clamp_amended ⟨[⟨2, 9, "x", 50, true, 0, 0, []⟩], true⟩ ⟨[7, 9], [], 0⟩ 2 400
      ⟨2, 9, "x", 50, true, 0, 0, []⟩ rfl 7 1 "casual" rfl rfl rfl⟩

/-- C9 (amended): on `auto_chat_start` over a live connection with no
prior session, the server first delivers the greeting
`auto_chat_message` for the new session and only then sends the
`auto_chat_started` acknowledgement carrying the session id. -/
theorem C9_order_amended (cm : ConnectionManager) (m : AutoChatManager) (w : World)
    (ws fid : Nat) (theme : String) (interval : Int)
    (hws : sessionsForWebsocket m ws = []) (halive : sendOk w ws = true) :
    ∃ cm2 m2 w2, handle_auto_chat_start cm m w ws theme interval fid = (cm2, m2, w2)
      ∧ w2.sent = w.sent ++
          [(ws, .autoChatMessage fid (get_themed_message "greeting") 1),
           (ws, .autoChatStarted fid theme interval)] := by
  unfold handle_auto_chat_start
  rw [start_auto_chat_fresh_alive m w ws fid theme interval hws halive]
  unfold ConnectionManager.send_personal_message send_websocket_message
  have halive2 : sendOk { w with sent := w.sent ++
      [(ws, Msg.autoChatMessage fid (get_themed_message "greeting") 1)] } ws = true := halive
  simp [halive2]
  exact ⟨cm, _, _, ⟨rfl, rfl, rfl⟩, rfl⟩

/-- C9 amended, witness at a concrete input. -/
theorem C9_order_amended_witness :
    sessionsForWebsocket ⟨[], false⟩ 7 = []
    ∧ sendOk ⟨[7], [], 0⟩ 7 = true
    ∧ ∃ cm2 m2 w2, handle_auto_chat_start ⟨[7]⟩ ⟨[], false⟩ ⟨[7], [], 0⟩ 7 "casual" 30 1
        = (cm2, m2, w2)
      ∧ w2.sent = ([] : List (Nat × Msg)) ++
          [(7, .autoChatMessage 1 (get_themed_message "greeting") 1),
           (7, .autoChatStarted 1 "casual" 30)] :=
  ⟨rfl, rfl, C9_order_amended ⟨[7]⟩ ⟨[], false⟩ ⟨[7], [], 0⟩ 7 1 "casual" 30 rfl rfl⟩

/-- C10: when the immediate greeting send fails during `start_auto_chat`,
the freshly created session is deleted from the session map, yet the call
still returns the fresh session id without error — the caller is handed a
session id that identifies no registered session. -/
theorem C10_stale_session_id (m : AutoChatManager) (w : World) (ws fid : Nat)
    (theme : String) (interval : Int)
    (hws : sessionsForWebsocket m ws = []) (hdead : sendOk w ws = false) :
    ∃ m2, start_auto_chat m w ws theme interval fid = .ok (fid, m2, w)
      ∧ lookupSession m2 fid = none := by
  refine ⟨_, start_auto_chat_fresh_dead m w ws fid theme interval hws hdead, ?_⟩
  exact lookupSession_deleteSession_self _ _

/-- C10, witness at a concrete input. -/
theorem C10_stale_session_id_witness :
    sessionsForWebsocket ⟨[], false⟩ 7 = []
    ∧ sendOk ⟨[], [], 0⟩ 7 = false
    ∧ ∃ m2, start_auto_chat ⟨[], false⟩ ⟨[], [], 0⟩ 7 "casual" 30 1 = .ok (1, m2, ⟨[], [], 0⟩)
      ∧ lookupSession m2 1 = none :=
  ⟨rfl, rfl, C10_stale_session_id ⟨[], false⟩ ⟨[], [], 0⟩ 7 1 "casual" 30 rfl rfl⟩

/-- Updating a session in place does not change any connection count as
long as the update keeps the websocket field. -/
theorem connCount_updateSession (m : AutoChatManager) (sid : Nat)
    (f : AutoChatSession → AutoChatSession) (ws : Nat)
    (hf : ∀ t, (f t).websocket = t.websocket) :
    connCount (updateSession m sid f) ws = connCount m ws := by
  unfold connCount updateSession
  rw [List.countP_map]
  apply List.countP_congr
  intro a _
  by_cases h : (a.session_id == sid) = true <;> simp [Function.comp, h, hf]

/-- Deleting a session can only lower a connection count. -/
theorem connCount_deleteSession_le (m : AutoChatManager) (sid ws : Nat) :
    connCount (deleteSession m sid) ws ≤ connCount m ws := by
  unfold connCount deleteSession
  rw [List.countP_filter]
  apply List.countP_mono_left
  intro a _ h
  simp only [Bool.and_eq_true] at h
  exact h.1

/-- `stop_auto_chat` never raises a connection count, on either exit. -/
theorem connCount_stop_le (m : AutoChatManager) (w : World) (sid ws : Nat) :
    connCount (exceptState (stop_auto_chat m w sid)).1 ws ≤ connCount m ws := by
  unfold stop_auto_chat send_websocket_message
  cases lookupSession m sid with
  | none => simp [exceptState]
  | some s =>
    dsimp only
    by_cases h : sendOk w s.websocket
    · simp only [h, if_true, exceptState]
      exact le_trans (connCount_deleteSession_le _ _ _)
        (le_of_eq (connCount_updateSession _ _ _ _ (fun t => rfl)))
    · simp only [h, Bool.false_eq_true, if_false, exceptState]
      exact le_of_eq (connCount_updateSession _ _ _ _ (fun t => rfl))

/-- The stop loop never raises a connection count, on either exit. -/
theorem connCount_stopSessions_le :
    ∀ (ids : List Nat) (m : AutoChatManager) (w : World) (ws : Nat),
      connCount (exceptStateL (stopSessions m w ids)).1 ws ≤ connCount m ws := by
  intro ids
  induction ids with
  | nil =>
    intro m w ws
    simp [stopSessions, exceptStateL]
  | cons sid rest ih =>
    intro m w ws
    simp only [stopSessions]
    cases hstop : stop_auto_chat m w sid with
    | ok t =>
      obtain ⟨b, m1, w1⟩ := t
      have h1 : connCount m1 ws ≤ connCount m ws := by
        have h0 := connCount_stop_le m w sid ws
        rw [hstop] at h0
        simpa [exceptState] using h0
      exact le_trans (ih m1 w1 ws) h1
    | error e =>
      obtain ⟨e0, m1, w1⟩ := e
      have h1 : connCount m1 ws ≤ connCount m ws := by
        have h0 := connCount_stop_le m w sid ws
        rw [hstop] at h0
        simpa [exceptState] using h0
      simpa [exceptStateL] using h1

/-- `stop_auto_chat_for_websocket` never raises a connection count. -/
theorem connCount_stop_for_ws_le (m : AutoChatManager) (w : World) (ws c : Nat) :
    connCount (exceptState (stop_auto_chat_for_websocket m w ws)).1 c ≤ connCount m c := by
  unfold stop_auto_chat_for_websocket
  dsimp only
  have h0 := connCount_stopSessions_le (sessionsForWebsocket m ws) m w c
  revert h0
  cases stopSessions m w (sessionsForWebsocket m ws) with
  | ok p =>
    obtain ⟨m1, w1⟩ := p
    intro h0
    simpa [exceptState, exceptStateL] using h0
  | error e =>
    obtain ⟨e0, m1, w1⟩ := e
    intro h0
    simpa [exceptState, exceptStateL] using h0

/-- Sending an auto message never raises a connection count. -/
theorem connCount_samwt_le (m : AutoChatManager) (w : World)
    (session : AutoChatSession) (text : String) (c : Nat) :
    connCount (send_auto_message_with_text m w session text).1 c ≤ connCount m c := by
  unfold send_auto_message_with_text
  cases hsend : send_websocket_message w session.websocket
      (.autoChatMessage session.session_id text (session.message_count + 1)) with
  | ok w1 =>
    exact le_of_eq (connCount_updateSession _ _ _ _ (fun t => rfl))
  | error e =>
    exact connCount_deleteSession_le _ _ _

/-- Pausing a session does not change any connection count. -/
theorem connCount_pause (m : AutoChatManager) (w : World) (sid : Nat) (d : Int) (c : Nat) :
    connCount (pause_auto_chat m w sid d) c = connCount m c := by
  unfold pause_auto_chat
  cases lookupSession m sid with
  | none => rfl
  | some s => exact connCount_updateSession _ _ _ _ (fun t => rfl)

/-- A session surviving `stop_auto_chat` descends from a session of the
original map with the same connection and id, and its id is not the
stopped one. -/
theorem stop_auto_chat_ok_mem (m : AutoChatManager) (w : World) (sid : Nat)
    (b : Bool) (m1 : AutoChatManager) (w1 : World)
    (h : stop_auto_chat m w sid = .ok (b, m1, w1)) :
    ∀ s1 ∈ m1.active_sessions, ∃ s ∈ m.active_sessions,
      s1.websocket = s.websocket ∧ s1.session_id = s.session_id ∧ s1.session_id ≠ sid := by
  unfold stop_auto_chat send_websocket_message at h
  revert h
  cases hlk : lookupSession m sid with
  | none =>
    intro h
    simp only [Except.ok.injEq, Prod.mk.injEq] at h
    obtain ⟨-, hm, -⟩ := h
    subst hm
    intro s1 hs1
    refine ⟨s1, hs1, rfl, rfl, ?_⟩
    have hno := List.find?_eq_none.mp hlk s1 hs1
    simpa using hno
  | some s0 =>
    intro h
    dsimp only at h
    by_cases hok : sendOk w s0.websocket
    · simp only [hok, if_true, Except.ok.injEq, Prod.mk.injEq] at h
      obtain ⟨-, hm, -⟩ := h
      subst hm
      intro s1 hs1
      simp only [deleteSession, updateSession, List.mem_filter, List.mem_map] at hs1
      obtain ⟨⟨t, ht, hteq⟩, hne⟩ := hs1
      subst hteq
      refine ⟨t, ht, ?_, ?_, ?_⟩
      · by_cases hc : (t.session_id == sid) = true <;> simp [hc]
      · by_cases hc : (t.session_id == sid) = true <;> simp [hc]
      · simpa [bne_iff_ne] using hne
    · simp [hok] at h

/-- Sessions surviving the stop loop descend from originals whose ids are
not among the stopped ids. -/
theorem stopSessions_ok_mem :
    ∀ (ids : List Nat) (m : AutoChatManager) (w : World) (m' : AutoChatManager) (w' : World),
      stopSessions m w ids = .ok (m', w') →
      ∀ s' ∈ m'.active_sessions, ∃ s ∈ m.active_sessions,
        s'.websocket = s.websocket ∧ s'.session_id = s.session_id ∧ s'.session_id ∉ ids := by
  intro ids
  induction ids with
  | nil =>
    intro m w m' w' h s' hs'
    simp only [stopSessions, Except.ok.injEq, Prod.mk.injEq] at h
    obtain ⟨hm, -⟩ := h
    subst hm
    exact ⟨s', hs', rfl, rfl, by simp⟩
  | cons sid rest ih =>
    intro m w m' w' h s' hs'
    unfold stopSessions at h
    revert h
    cases hstop : stop_auto_chat m w sid with
    | ok t =>
      obtain ⟨b, m1, w1⟩ := t
      intro h
      obtain ⟨s1, hs1, hw1, hid1, hni⟩ := ih m1 w1 m' w' h s' hs'
      obtain ⟨s, hsmem, hw2, hid2, hneq⟩ := stop_auto_chat_ok_mem m w sid b m1 w1 hstop s1 hs1
      refine ⟨s, hsmem, hw1.trans hw2, hid1.trans hid2, ?_⟩
      simp only [List.mem_cons, not_or]
      refine ⟨?_, ?_⟩
      · rw [hid1]
        exact hneq
      · rw [hid1.trans hid2]
        rw [← hid1.trans hid2]
        exact hni
    | error e =>
      intro h
      exact absurd h (by simp)

/-- Sessions surviving `stop_auto_chat_for_websocket` descend from
originals whose ids were not collected for removal. -/
theorem stop_for_ws_ok_mem (m : AutoChatManager) (w : World) (ws : Nat)
    (b : Bool) (m' : AutoChatManager) (w' : World)
    (h : stop_auto_chat_for_websocket m w ws = .ok (b, m', w')) :
    ∀ s' ∈ m'.active_sessions, ∃ s ∈ m.active_sessions,
      s'.websocket = s.websocket ∧ s'.session_id = s.session_id ∧
      s'.session_id ∉ sessionsForWebsocket m ws := by
  unfold stop_auto_chat_for_websocket at h
  dsimp only at h
  revert h
  cases hss : stopSessions m w (sessionsForWebsocket m ws) with
  | ok p =>
    obtain ⟨m1, w1⟩ := p
    intro h
    simp only [Except.ok.injEq, Prod.mk.injEq] at h
    obtain ⟨-, hm, -⟩ := h
    subst hm
    exact stopSessions_ok_mem _ m w m1 w1 hss
  | error e =>
    intro h
    exact absurd h (by simp)

/-- A successful `stop_auto_chat_for_websocket` leaves no session bound to
the websocket. -/
theorem stop_for_websocket_ok_connCount (m : AutoChatManager) (w : World) (ws : Nat)
    (b : Bool) (m' : AutoChatManager) (w' : World)
    (h : stop_auto_chat_for_websocket m w ws = .ok (b, m', w')) :
    connCount m' ws = 0 := by
  rw [connCount, List.countP_eq_zero]
  intro s' hs' hp
  obtain ⟨s, hsmem, hwk, hidk, hni⟩ := stop_for_ws_ok_mem m w ws b m' w' h s' hs'
  apply hni
  unfold sessionsForWebsocket
  apply List.mem_map.mpr
  refine ⟨s, List.mem_filter.mpr ⟨hsmem, ?_⟩, hidk.symm⟩
  rw [← hwk]
  exact hp

/-- An id absent from the lookup is absent from the key list. -/
theorem not_mem_ids_of_lookup_none (m : AutoChatManager) (fid : Nat)
    (h : lookupSession m fid = none) :
    fid ∉ m.active_sessions.map (fun t => t.session_id) := by
  intro hmem
  obtain ⟨t, ht, hteq⟩ := List.mem_map.mp hmem
  have h2 := List.find?_eq_none.mp h t ht
  simp [hteq] at h2

/-- With unique keys, looking a member session up by its own id finds it. -/
theorem find?_id_of_mem_nodup :
    ∀ (l : List AutoChatSession) (s : AutoChatSession),
      (l.map (fun t => t.session_id)).Nodup → s ∈ l →
      l.find? (fun t => t.session_id == s.session_id) = some s := by
  intro l
  induction l with
  | nil => intro s _ hmem; simp at hmem
  | cons a l ih =>
    intro s hnd hmem
    rw [List.map_cons, List.nodup_cons] at hnd
    rcases List.mem_cons.mp hmem with heq | hmem2
    · subst heq
      rw [List.find?_cons]
      simp
    · have hne : (a.session_id == s.session_id) = false := by
        have : s.session_id ∈ l.map (fun t => t.session_id) :=
          List.mem_map.mpr ⟨s, hmem2, rfl⟩
        have hanin := hnd.1
        simp only [beq_eq_false_iff_ne, ne_eq]
        intro hcontra
        exact hanin (hcontra ▸ this)
      rw [List.find?_cons, hne]
      exact ih s hnd.2 hmem2

/-- An in-place session update keeps the key list unchanged as long as it
keeps the key of any entry it touches. -/
theorem wfKeys_updateSession (m : AutoChatManager) (sid : Nat)
    (f : AutoChatSession → AutoChatSession)
    (hf : ∀ t, (t.session_id == sid) = true → (f t).session_id = t.session_id)
    (h : wfKeys m) : wfKeys (updateSession m sid f) := by
  unfold wfKeys updateSession at *
  rw [List.map_map]
  have hcg : ∀ a ∈ m.active_sessions,
      ((fun t => t.session_id) ∘ fun t => if t.session_id == sid then f t else t) a
        = (fun t => t.session_id) a := by
    intro a _
    by_cases hc : (a.session_id == sid) = true
    · simp [Function.comp, hc, hf a hc]
    · simp [Function.comp, hc]
  rw [List.map_congr_left hcg]
  exact h

/-- Deleting an entry keeps the keys unique. -/
theorem wfKeys_deleteSession (m : AutoChatManager) (sid : Nat)
    (h : wfKeys m) : wfKeys (deleteSession m sid) := by
  unfold wfKeys deleteSession at *
  exact h.sublist ((List.filter_sublist _).map _)

/-- `stop_auto_chat` keeps the keys unique, on either exit. -/
theorem wfKeys_stop (m : AutoChatManager) (w : World) (sid : Nat)
    (h : wfKeys m) : wfKeys (exceptState (stop_auto_chat m w sid)).1 := by
  unfold stop_auto_chat send_websocket_message
  cases lookupSession m sid with
  | none => simpa [exceptState] using h
  | some s =>
    dsimp only
    by_cases hok : sendOk w s.websocket
    · simp only [hok, if_true, exceptState]
      exact wfKeys_deleteSession _ _ (wfKeys_updateSession _ _ _ (fun t _ => rfl) h)
    · simp only [hok, Bool.false_eq_true, if_false, exceptState]
      exact wfKeys_updateSession _ _ _ (fun t _ => rfl) h

/-- The stop loop keeps the keys unique, on either exit. -/
theorem wfKeys_stopSessions :
    ∀ (ids : List Nat) (m : AutoChatManager) (w : World),
      wfKeys m → wfKeys (exceptStateL (stopSessions m w ids)).1 := by
  intro ids
  induction ids with
  | nil =>
    intro m w h
    simpa [stopSessions, exceptStateL] using h
  | cons sid rest ih =>
    intro m w h
    simp only [stopSessions]
    cases hstop : stop_auto_chat m w sid with
    | ok t =>
      obtain ⟨b, m1, w1⟩ := t
      have h1 : wfKeys m1 := by
        have h0 := wfKeys_stop m w sid h
        rw [hstop] at h0
        simpa [exceptState] using h0
      exact ih m1 w1 h1
    | error e =>
      obtain ⟨e0, m1, w1⟩ := e
      have h1 : wfKeys m1 := by
        have h0 := wfKeys_stop m w sid h
        rw [hstop] at h0
        simpa [exceptState] using h0
      simpa [exceptStateL] using h1

/-- `stop_auto_chat_for_websocket` keeps the keys unique, on either exit. -/
theorem wfKeys_stop_for_ws (m : AutoChatManager) (w : World) (ws : Nat)
    (h : wfKeys m) : wfKeys (exceptState (stop_auto_chat_for_websocket m w ws)).1 := by
  unfold stop_auto_chat_for_websocket
  dsimp only
  have h0 := wfKeys_stopSessions (sessionsForWebsocket m ws) m w h
  revert h0
  cases stopSessions m w (sessionsForWebsocket m ws) with
  | ok p =>
    obtain ⟨m1, w1⟩ := p
    intro h0
    simpa [exceptState, exceptStateL] using h0
  | error e =>
    obtain ⟨e0, m1, w1⟩ := e
    intro h0
    simpa [exceptState, exceptStateL] using h0

/-- Sending an auto message keeps the keys unique. -/
theorem wfKeys_samwt (m : AutoChatManager) (w : World)
    (session : AutoChatSession) (text : String)
    (h : wfKeys m) : wfKeys (send_auto_message_with_text m w session text).1 := by
  unfold send_auto_message_with_text send_websocket_message
  by_cases hok : sendOk w session.websocket
  · simp only [hok, if_true]
    exact wfKeys_updateSession _ _ _ (fun t _ => rfl) h
  · simp only [hok, Bool.false_eq_true, if_false]
    exact wfKeys_deleteSession _ _ h

/-- `send_auto_message` keeps the keys unique. -/
theorem wfKeys_send_auto_message (m : AutoChatManager) (w : World)
    (session : AutoChatSession) (h : wfKeys m) :
    wfKeys (send_auto_message m w session).1 := by
  unfold send_auto_message
  exact wfKeys_samwt _ _ _ _ h

/-- Pausing keeps the keys unique. -/
theorem wfKeys_pause (m : AutoChatManager) (w : World) (sid : Nat) (d : Int)
    (h : wfKeys m) : wfKeys (pause_auto_chat m w sid d) := by
  unfold pause_auto_chat
  cases lookupSession m sid with
  | none => exact h
  | some s => exact wfKeys_updateSession _ _ _ (fun t _ => rfl) h

/-- The background-task flag does not touch connection counts. -/
theorem connCount_bg (m : AutoChatManager) (c : Nat) :
    connCount (start_background_task m) c = connCount m c := by
  unfold connCount
  rw [start_background_task_sessions]

/-- The background-task flag keeps the keys unique. -/
theorem wfKeys_bg (m : AutoChatManager) (h : wfKeys m) :
    wfKeys (start_background_task m) := by
  unfold wfKeys
  rw [start_background_task_sessions]
  exact h

/-- `send_auto_message` never raises a connection count. -/
theorem connCount_send_auto_message_le (m : AutoChatManager) (w : World)
    (session : AutoChatSession) (c : Nat) :
    connCount (send_auto_message m w session).1 c ≤ connCount m c := by
  unfold send_auto_message
  exact connCount_samwt_le _ _ _ _ _

/-- Replacing the (unique) entry under `sid` by a session bound to the
same connection does not change any connection count. -/
theorem countP_map_update_const :
    ∀ (l : List AutoChatSession) (sid : Nat) (s s2 : AutoChatSession) (c : Nat),
      (l.map (fun t => t.session_id)).Nodup →
      l.find? (fun t => t.session_id == sid) = some s →
      s2.websocket = s.websocket →
      (l.map (fun t => if t.session_id == sid then s2 else t)).countP
          (fun t => t.websocket == c)
        = l.countP (fun t => t.websocket == c) := by
  intro l
  induction l with
  | nil => intro sid s s2 c _ hs _; simp at hs
  | cons a l ih =>
    intro sid s s2 c hnd hs hws
    rw [List.map_cons, List.nodup_cons] at hnd
    cases ha : a.session_id == sid with
    | true =>
      rw [List.find?_cons, ha] at hs
      have haa : a = s := Option.some.inj hs
      subst haa
      have hrest : l.map (fun t => if t.session_id == sid then s2 else t) = l := by
        have hcg : ∀ t ∈ l, (if t.session_id == sid then s2 else t) = t := by
          intro t ht
          have hasid : a.session_id = sid := by simpa using ha
          have htne : (t.session_id == sid) = false := by
            simp only [beq_eq_false_iff_ne, ne_eq]
            intro hcontra
            exact hnd.1 (List.mem_map.mpr ⟨t, ht, by rw [hcontra, hasid]⟩)
          simp [htne]
        exact (List.map_congr_left hcg).trans (List.map_id l)
      simp only [List.map_cons, if_pos ha, hrest, List.countP_cons, hws]
    | false =>
      rw [List.find?_cons, ha] at hs
      have hneg : ¬ (a.session_id == sid) = true := by simp [ha]
      simp only [List.map_cons, if_neg hneg, List.countP_cons]
      rw [ih sid s s2 c hnd.2 hs hws]

/-- State of `start_auto_chat` when the initial stop succeeds. -/
theorem start_state_ok (m : AutoChatManager) (w : World) (ws : Nat)
    (theme : String) (interval : Int) (fid : Nat) (b : Bool)
    (m1 : AutoChatManager) (w1 : World)
    (h : stop_auto_chat_for_websocket m w ws = .ok (b, m1, w1)) :
    exceptState (start_auto_chat m w ws theme interval fid)
      = send_auto_message
          (start_background_task
            { m1 with active_sessions := m1.active_sessions ++
                [⟨fid, ws, theme, interval, true, w1.now, 0, []⟩] })
          w1 ⟨fid, ws, theme, interval, true, w1.now, 0, []⟩ := by
  unfold start_auto_chat
  rw [h]
  dsimp only
  cases send_auto_message
      (start_background_task
        { m1 with active_sessions := m1.active_sessions ++
            [⟨fid, ws, theme, interval, true, w1.now, 0, []⟩] })
      w1 ⟨fid, ws, theme, interval, true, w1.now, 0, []⟩ with
  | mk m4 w2 => rfl

/-- State of `start_auto_chat` when the initial stop raises. -/
theorem start_state_error (m : AutoChatManager) (w : World) (ws : Nat)
    (theme : String) (interval : Int) (fid : Nat) (e : String)
    (m1 : AutoChatManager) (w1 : World)
    (h : stop_auto_chat_for_websocket m w ws = .error (e, m1, w1)) :
    exceptState (start_auto_chat m w ws theme interval fid) = (m1, w1) := by
  unfold start_auto_chat
  rw [h]
  rfl

/-- C3: every operation — starting a session (with a fresh id), stopping a
session by id or by websocket, or handling a user utterance — preserves
the invariant that at most one session in the scheduler's map references
any given connection (together with uniqueness of the session ids), so
along any operation sequence from a well-formed state no connection is
ever referenced by two sessions. -/
theorem C3_at_most_one_session_per_connection (m : AutoChatManager) (w : World) (op : Op)
    (hkeys : wfKeys m) (hinv : atMostOnePerConn m) (hfresh : opFresh m op) :
    atMostOnePerConn (applyOp m w op).1 ∧ wfKeys (applyOp m w op).1 := by
  cases op with
  | stop sid =>
    simp only [applyOp]
    exact ⟨fun c => le_trans (connCount_stop_le m w sid c) (hinv c),
      wfKeys_stop m w sid hkeys⟩
  | stopForWs ws =>
    simp only [applyOp]
    exact ⟨fun c => le_trans (connCount_stop_for_ws_le m w ws c) (hinv c),
      wfKeys_stop_for_ws m w ws hkeys⟩
  | userInput ws text =>
    simp only [applyOp]
    unfold handle_user_input
    cases hfind : m.active_sessions.find? (fun s => s.websocket == ws && s.is_active) with
    | none => exact ⟨hinv, hkeys⟩
    | some session =>
      dsimp only
      have hmem : session ∈ m.active_sessions := List.mem_of_find?_eq_some hfind
      have hsid := find?_id_of_mem_nodup m.active_sessions session hkeys hmem
      have hc1 : ∀ c, connCount (updateSession m session.session_id
          (fun _ => add_user_response session text)) c = connCount m c :=
        fun c => countP_map_update_const m.active_sessions session.session_id session
          (add_user_response session text) c hkeys hsid rfl
      have hk1 : wfKeys (updateSession m session.session_id
          (fun _ => add_user_response session text)) := by
        refine wfKeys_updateSession _ _ _ ?_ hkeys
        intro t ht
        have h2 : t.session_id = session.session_id := by simpa using ht
        rw [h2]
        rfl
      unfold send_contextual_response
      constructor
      · intro c
        refine le_trans (connCount_samwt_le _ _ _ _ _) ?_
        rw [connCount_pause, hc1]
        exact hinv c
      · exact wfKeys_samwt _ _ _ _ (wfKeys_pause _ _ _ _ hk1)
  | start ws theme interval fid =>
    simp only [applyOp]
    simp only [opFresh] at hfresh
    cases hsfw : stop_auto_chat_for_websocket m w ws with
    | error e =>
      obtain ⟨e0, m1, w1⟩ := e
      rw [start_state_error m w ws theme interval fid e0 m1 w1 hsfw]
      constructor
      · intro c
        have h0 := connCount_stop_for_ws_le m w ws c
        rw [hsfw] at h0
        simp only [exceptState] at h0
        exact le_trans h0 (hinv c)
      · have h0 := wfKeys_stop_for_ws m w ws hkeys
        rw [hsfw] at h0
        simpa [exceptState] using h0
    | ok t =>
      obtain ⟨b, m1, w1⟩ := t
      rw [start_state_ok m w ws theme interval fid b m1 w1 hsfw]
      have hm1le : ∀ c, connCount m1 c ≤ connCount m c := by
        intro c
        have h0 := connCount_stop_for_ws_le m w ws c
        rw [hsfw] at h0
        simpa [exceptState] using h0
      have hk1 : wfKeys m1 := by
        have h0 := wfKeys_stop_for_ws m w ws hkeys
        rw [hsfw] at h0
        simpa [exceptState] using h0
      constructor
      · intro c
        refine le_trans (connCount_send_auto_message_le _ _ _ c) ?_
        rw [connCount_bg]
        by_cases hc : (ws == c) = true
        · have hcc : ws = c := by simpa using hc
          subst hcc
          have happ : connCount { m1 with active_sessions := m1.active_sessions ++
                [⟨fid, ws, theme, interval, true, w1.now, 0, []⟩] } ws
              = connCount m1 ws + 1 := by
            unfold connCount
            simp [List.countP_append, List.countP_cons]
          rw [happ, stop_for_websocket_ok_connCount m w ws b m1 w1 hsfw]
        · have happ : connCount { m1 with active_sessions := m1.active_sessions ++
                [⟨fid, ws, theme, interval, true, w1.now, 0, []⟩] } c
              = connCount m1 c := by
            unfold connCount
            simp [List.countP_append, List.countP_cons, hc]
          rw [happ]
          exact le_trans (hm1le c) (hinv c)
      · have hfid : fid ∉ m1.active_sessions.map (fun t => t.session_id) := by
          intro hmemid
          obtain ⟨t, ht, hteq⟩ := List.mem_map.mp hmemid
          obtain ⟨s, hsm, -, hid, -⟩ := stop_for_ws_ok_mem m w ws b m1 w1 hsfw t ht
          have hmemm : fid ∈ m.active_sessions.map (fun t => t.session_id) :=
            List.mem_map.mpr ⟨s, hsm, by rw [← hid, hteq]⟩
          exact not_mem_ids_of_lookup_none m fid hfresh hmemm
        have hk2 : wfKeys { m1 with active_sessions := m1.active_sessions ++
            [⟨fid, ws, theme, interval, true, w1.now, 0, []⟩] } := by
          unfold wfKeys
          rw [List.map_append]
          refine List.nodup_append.mpr ⟨hk1, by simp, ?_⟩
          intro x hx hx2
          simp only [List.map_cons, List.map_nil, List.mem_singleton] at hx2
          subst hx2
          exact hfid hx
        exact wfKeys_send_auto_message _ _ _ (wfKeys_bg _ hk2)

/-- C3, witness at a concrete input. -/
theorem C3_at_most_one_session_per_connection_witness :
    wfKeys ⟨[], false⟩ ∧ atMostOnePerConn ⟨[], false⟩
    ∧ opFresh ⟨[], false⟩ (Op.start 7 "casual" 30 1)
    ∧ (atMostOnePerConn (applyOp ⟨[], false⟩ ⟨[7], [], 0⟩ (Op.start 7 "casual" 30 1)).1
       ∧ wfKeys (applyOp ⟨[], false⟩ ⟨[7], [], 0⟩ (Op.start 7 "casual" 30 1)).1) :=
  ⟨by unfold wfKeys; simp,
   by unfold atMostOnePerConn connCount; intro c; simp,
   rfl,
   C3_at_most_one_session_per_connection ⟨[], false⟩ ⟨[7], [], 0⟩ (Op.start 7 "casual" 30 1)
     (by unfold wfKeys; simp)
     (by unfold atMostOnePerConn connCount; intro c; simp)
     rfl⟩

/-- Updating under a different key leaves a lookup unchanged, provided the
update keeps keys. -/
theorem find?_update_ne (l : List AutoChatSession) (sid sid2 : Nat)
    (f : AutoChatSession → AutoChatSession)
    (hf : ∀ t, (f t).session_id = t.session_id) (hne : sid2 ≠ sid) :
    (l.map (fun t => if t.session_id == sid2 then f t else t)).find?
        (fun t => t.session_id == sid) = l.find? (fun t => t.session_id == sid) := by
  induction l with
  | nil => rfl
  | cons a l ih =>
    simp only [List.map_cons]
    by_cases ha : (a.session_id == sid2) = true
    · have ha2 : a.session_id = sid2 := by simpa using ha
      have hpa : ((f a).session_id == sid) = false := by
        simp only [hf a, ha2, beq_eq_false_iff_ne, ne_eq]
        exact hne
      have hpa0 : (a.session_id == sid) = false := by
        simp only [ha2, beq_eq_false_iff_ne, ne_eq]
        exact hne
      rw [if_pos ha, List.find?_cons, hpa, List.find?_cons, hpa0]
      exact ih
    · rw [if_neg ha, List.find?_cons, List.find?_cons]
      cases hb : a.session_id == sid with
      | true => rfl
      | false => exact ih

/-- Deleting a different key leaves a lookup unchanged. -/
theorem find?_filter_ne (l : List AutoChatSession) (sid sid2 : Nat) (hne : sid2 ≠ sid) :
    (l.filter (fun t => t.session_id != sid2)).find? (fun t => t.session_id == sid)
      = l.find? (fun t => t.session_id == sid) := by
  induction l with
  | nil => rfl
  | cons a l ih =>
    by_cases ha : (a.session_id != sid2) = true
    · rw [List.filter_cons, if_pos ha, List.find?_cons, List.find?_cons]
      cases hb : a.session_id == sid with
      | true => rfl
      | false => exact ih
    · rw [List.filter_cons, if_neg ha]
      have ha2 : a.session_id = sid2 := by
        simpa [bne_iff_ne, not_not] using ha
      have hb : (a.session_id == sid) = false := by
        simp only [ha2, beq_eq_false_iff_ne, ne_eq]
        exact hne
      rw [List.find?_cons, hb]
      exact ih

/-- Manager-level form of `find?_update_ne`. -/
theorem lookupSession_updateSession_ne (m : AutoChatManager) (sid sid2 : Nat)
    (f : AutoChatSession → AutoChatSession)
    (hf : ∀ t, (f t).session_id = t.session_id) (hne : sid2 ≠ sid) :
    lookupSession (updateSession m sid2 f) sid = lookupSession m sid :=
  find?_update_ne m.active_sessions sid sid2 f hf hne

/-- Manager-level form of `find?_filter_ne`. -/
theorem lookupSession_deleteSession_ne (m : AutoChatManager) (sid sid2 : Nat)
    (hne : sid2 ≠ sid) :
    lookupSession (deleteSession m sid2) sid = lookupSession m sid :=
  find?_filter_ne m.active_sessions sid sid2 hne

/-- `send_auto_message` keyed on a different session id leaves a lookup
unchanged. -/
theorem lookupSession_send_auto_message_ne (m : AutoChatManager) (w : World)
    (t : AutoChatSession) (sid : Nat) (hne : t.session_id ≠ sid) :
    lookupSession (send_auto_message m w t).1 sid = lookupSession m sid := by
  unfold send_auto_message send_auto_message_with_text send_websocket_message
  by_cases hok : sendOk w t.websocket
  · simp only [hok, if_true]
    exact lookupSession_updateSession_ne m sid t.session_id _ (fun u => rfl) hne
  · simp only [hok, Bool.false_eq_true, if_false]
    exact lookupSession_deleteSession_ne m sid t.session_id hne

/-- The world after `send_auto_message` is the old world with some
messages appended (alive set and clock unchanged). -/
theorem send_auto_message_world (m : AutoChatManager) (w : World) (t : AutoChatSession) :
    ∃ tail, (send_auto_message m w t).2 = { w with sent := w.sent ++ tail } := by
  unfold send_auto_message send_auto_message_with_text send_websocket_message
  by_cases hok : sendOk w t.websocket
  · refine ⟨[(t.websocket, Msg.autoChatMessage t.session_id
      (if t.message_count == 0 then get_themed_message "greeting"
       else get_contextual_message t.theme) (t.message_count + 1))], ?_⟩
    simp [hok]
  · refine ⟨[], ?_⟩
    simp [hok]

/-- The world after a tick is the old world with some messages appended. -/
theorem processSessions_world :
    ∀ (snapshot : List AutoChatSession) (m : AutoChatManager) (w : World),
      ∃ tail, (processSessions m w snapshot).2 = { w with sent := w.sent ++ tail } := by
  intro snapshot
  induction snapshot with
  | nil =>
    intro m w
    exact ⟨[], by simp [processSessions]⟩
  | cons t rest ih =>
    intro m w
    unfold processSessions
    by_cases hg : (t.is_active && should_send_message w t) = true
    · rw [if_pos hg]
      cases hsa : send_auto_message m w t with
      | mk m1 w1 =>
        obtain ⟨tail1, h1⟩ := send_auto_message_world m w t
        rw [hsa] at h1
        have h1' : w1 = { w with sent := w.sent ++ tail1 } := h1
        obtain ⟨tail2, h2⟩ := ih m1 w1
        refine ⟨tail1 ++ tail2, ?_⟩
        dsimp only
        rw [h2, h1']
        simp [List.append_assoc]
    · rw [if_neg hg]
      exact ih m w

/-- A tick leaves lookups of ids outside the snapshot unchanged. -/
theorem processSessions_lookup_ne :
    ∀ (snapshot : List AutoChatSession) (m : AutoChatManager) (w : World) (sid : Nat),
      (∀ t ∈ snapshot, t.session_id ≠ sid) →
      lookupSession (processSessions m w snapshot).1 sid = lookupSession m sid := by
  intro snapshot
  induction snapshot with
  | nil => intro m w sid _; rfl
  | cons t rest ih =>
    intro m w sid hne
    unfold processSessions
    by_cases hg : (t.is_active && should_send_message w t) = true
    · rw [if_pos hg]
      cases hsa : send_auto_message m w t with
      | mk m1 w1 =>
        dsimp only
        rw [ih m1 w1 sid (fun u hu => hne u (List.mem_cons_of_mem t hu))]
        have h0 := lookupSession_send_auto_message_ne m w t sid
          (hne t (List.mem_cons_self t rest))
        rw [hsa] at h0
        exact h0
    · rw [if_neg hg]
      exact ih m w sid (fun u hu => hne u (List.mem_cons_of_mem t hu))

/-- One tick over a snapshot with unique ids: a due, active session whose
connection is dead ends up deleted; one whose connection is alive gets
exactly its own message delivered and its counter bumped — independently
of what happens to the other sessions of the snapshot. -/
theorem processSessions_spec :
    ∀ (snapshot : List AutoChatSession) (m : AutoChatManager) (w : World)
      (s : AutoChatSession),
      s ∈ snapshot →
      (snapshot.map (fun t => t.session_id)).Nodup →
      lookupSession m s.session_id = some s →
      s.is_active = true →
      should_send_message w s = true →
      ((sendOk w s.websocket = false →
          lookupSession (processSessions m w snapshot).1 s.session_id = none)
       ∧ (sendOk w s.websocket = true →
          lookupSession (processSessions m w snapshot).1 s.session_id
            = some { s with last_message_time := w.now,
                            message_count := s.message_count + 1 }
          ∧ (s.websocket, Msg.autoChatMessage s.session_id
               (if s.message_count == 0 then get_themed_message "greeting"
                else get_contextual_message s.theme) (s.message_count + 1))
              ∈ (processSessions m w snapshot).2.sent)) := by
  intro snapshot
  induction snapshot with
  | nil => intro m w s hmem; simp at hmem
  | cons t rest ih =>
    intro m w s hmem hnd hlk hact hdue
    rw [List.map_cons, List.nodup_cons] at hnd
    rcases List.mem_cons.mp hmem with heq | hmem2
    · subst heq
      have hrest2 : ∀ u ∈ rest, u.session_id ≠ s.session_id := by
        intro u hu hcontra
        exact hnd.1 (List.mem_map.mpr ⟨u, hu, hcontra⟩)
      unfold processSessions
      rw [if_pos (by rw [hact, hdue]; rfl)]
      constructor
      · intro hdead
        have hsa : send_auto_message m w s = (deleteSession m s.session_id, w) := by
          unfold send_auto_message send_auto_message_with_text send_websocket_message
          simp [hdead]
        rw [hsa]
        dsimp only
        rw [processSessions_lookup_ne rest _ w s.session_id hrest2]
        exact lookupSession_deleteSession_self m s.session_id
      · intro halive
        have hsa : send_auto_message m w s
            = (updateSession m s.session_id
                (fun u => { u with last_message_time := w.now,
                                   message_count := u.message_count + 1 }),
               { w with sent := w.sent ++ [(s.websocket,
                   Msg.autoChatMessage s.session_id
                     (if s.message_count == 0 then get_themed_message "greeting"
                      else get_contextual_message s.theme) (s.message_count + 1))] }) := by
          unfold send_auto_message send_auto_message_with_text send_websocket_message
          simp [halive]
        rw [hsa]
        dsimp only
        constructor
        · rw [processSessions_lookup_ne rest _ _ s.session_id hrest2]
          exact lookupSession_updateSession_self m s.session_id _ s hlk (by simp)
        · obtain ⟨tail, hw⟩ := processSessions_world rest
            (updateSession m s.session_id
              (fun u => { u with last_message_time := w.now,
                                 message_count := u.message_count + 1 }))
            { w with sent := w.sent ++ [(s.websocket,
                Msg.autoChatMessage s.session_id
                  (if s.message_count == 0 then get_themed_message "greeting"
                   else get_contextual_message s.theme) (s.message_count + 1))] }
          rw [hw]
          dsimp only
          rw [List.append_assoc]
          apply List.mem_append_right
          apply List.mem_append_left
          simp
    · have htne : t.session_id ≠ s.session_id := by
        intro hcontra
        exact hnd.1 (List.mem_map.mpr ⟨s, hmem2, hcontra.symm⟩)
      unfold processSessions
      by_cases hg : (t.is_active && should_send_message w t) = true
      · rw [if_pos hg]
        cases hsa : send_auto_message m w t with
        | mk m1 w1 =>
          dsimp only
          obtain ⟨tail1, hw1⟩ := send_auto_message_world m w t
          rw [hsa] at hw1
          have hw1' : w1 = { w with sent := w.sent ++ tail1 } := hw1
          subst hw1'
          have hlk1 : lookupSession m1 s.session_id = some s := by
            have h0 := lookupSession_send_auto_message_ne m w t s.session_id htne
            rw [hsa] at h0
            exact h0.trans hlk
          exact ih m1 { w with sent := w.sent ++ tail1 } s hmem2 hnd.2 hlk1 hact hdue
      · rw [if_neg hg]
        exact ih m w s hmem2 hnd.2 hlk hact hdue

/-- C8: within one shared scheduler tick, a send failure for one due
session neither aborts processing of the other sessions in the snapshot
nor is retried — the failing session is removed from the session map while
every other due session still gets its message delivered and its counter
bumped. -/
theorem C8_tick_isolation (m : AutoChatManager) (w : World) (s : AutoChatSession)
    (hkeys : wfKeys m) (hmem : s ∈ m.active_sessions)
    (hact : s.is_active = true) (hdue : should_send_message w s = true) :
    (sendOk w s.websocket = false →
        lookupSession (auto_chat_loop_tick m w).1 s.session_id = none)
    ∧ (sendOk w s.websocket = true →
        lookupSession (auto_chat_loop_tick m w).1 s.session_id
          = some { s with last_message_time := w.now,
                          message_count := s.message_count + 1 }
        ∧ (s.websocket, Msg.autoChatMessage s.session_id
             (if s.message_count == 0 then get_themed_message "greeting"
              else get_contextual_message s.theme) (s.message_count + 1))
            ∈ (auto_chat_loop_tick m w).2.sent) := by
  have hlk : lookupSession m s.session_id = some s :=
    find?_id_of_mem_nodup m.active_sessions s hkeys hmem
  exact processSessions_spec m.active_sessions m w s hmem hkeys hlk hact hdue

/-- C8, witness: two due sessions, one on a dead connection; the tick
removes the dead one and still serves the live one. -/
theorem C8_tick_isolation_witness :
    wfKeys ⟨[⟨1, 1, "casual", 10, true, 0, 0, []⟩,
             ⟨2, 2, "casual", 10, true, 0, 0, []⟩], true⟩
    ∧ (⟨2, 2, "casual", 10, true, 0, 0, []⟩ : AutoChatSession)
        ∈ [(⟨1, 1, "casual", 10, true, 0, 0, []⟩ : AutoChatSession),
           ⟨2, 2, "casual", 10, true, 0, 0, []⟩]
    ∧ should_send_message ⟨[1], [], 100⟩ ⟨2, 2, "casual", 10, true, 0, 0, []⟩ = true
    ∧ lookupSession (auto_chat_loop_tick
        ⟨[⟨1, 1, "casual", 10, true, 0, 0, []⟩,
          ⟨2, 2, "casual", 10, true, 0, 0, []⟩], true⟩ ⟨[1], [], 100⟩).1 2 = none
    ∧ (lookupSession (auto_chat_loop_tick
          ⟨[⟨1, 1, "casual", 10, true, 0, 0, []⟩,
            ⟨2, 2, "casual", 10, true, 0, 0, []⟩], true⟩ ⟨[1], [], 100⟩).1 1
        = some ⟨1, 1, "casual", 10, true, 100, 1, []⟩
       ∧ ((1 : Nat), Msg.autoChatMessage 1 (get_themed_message "greeting") 1)
          ∈ (auto_chat_loop_tick
              ⟨[⟨1, 1, "casual", 10, true, 0, 0, []⟩,
                ⟨2, 2, "casual", 10, true, 0, 0, []⟩], true⟩ ⟨[1], [], 100⟩).2.sent) :=
  ⟨by unfold wfKeys; decide, by decide, rfl,
   (C8_tick_isolation ⟨[⟨1, 1, "casual", 10, true, 0, 0, []⟩,
       ⟨2, 2, "casual", 10, true, 0, 0, []⟩], true⟩ ⟨[1], [], 100⟩
       ⟨2, 2, "casual", 10, true, 0, 0, []⟩ (by unfold wfKeys; decide) (by decide)
       rfl rfl).1 rfl,
   (C8_tick_isolation ⟨[⟨1, 1, "casual", 10, true, 0, 0, []⟩,
       ⟨2, 2, "casual", 10, true, 0, 0, []⟩], true⟩ ⟨[1], [], 100⟩
       ⟨1, 1, "casual", 10, true, 0, 0, []⟩ (by unfold wfKeys; decide) (by decide)
       rfl rfl).2 rfl⟩
